import Mathlib

/-!
Shallow embedding of the example module
src/plugins-old/languages/python/templates/example.py
(the only unit of this repository with runtime behaviour, per the spec).

Modelling conventions:
- Python float is modelled as the exact rationals ℚ; all arithmetic in the
  source is elementary (multiplication, division by 100, min, subtraction).
- Python str is modelled as Lean String.  The two string primitives the
  source uses, membership of a character (the in operator) and str.split on
  a one-character separator, are embedded below on the underlying character
  list, following Python semantics (split keeps empty parts and returns the
  whole string as a single part when the separator is absent).
- A Python dict is modelled as an association list, looked up by first
  match; key membership is lookup success.
- A raised exception is modelled as the error side of Except.  The source
  raises ValueError with distinguishing messages; the error type below has
  one constructor per distinguishable failure, carrying the payload the
  message carries.
-/

/-- Coarse ASCII whitespace test used by Python int() when parsing a string:
leading and trailing whitespace is ignored. -/
def isPyWhitespace (c : Char) : Bool :=
  c = ' ' || c = '\t' || c = '\n' || c = '\r' || c = '\x0b' || c = '\x0c'

/-- Accumulating parser for the digit tail of a Python integer literal:
single underscores may appear between digits, never doubled or trailing. -/
def parseDigitsCore : List Char → Nat → Option Nat
  | [], acc => some acc
  | '_' :: c :: rest, acc =>
      if c.isDigit then parseDigitsCore rest (acc * 10 + (c.toNat - '0'.toNat)) else none
  | c :: rest, acc =>
      if c.isDigit then parseDigitsCore rest (acc * 10 + (c.toNat - '0'.toNat)) else none

/-- Parser for a non-empty run of digits (with embedded underscores),
as accepted by Python int() after sign and whitespace handling. -/
def parseDigits : List Char → Option Nat
  | [] => none
  | c :: rest =>
      if c.isDigit then parseDigitsCore rest (c.toNat - '0'.toNat) else none

/-- Python int(s) on a string: strips surrounding whitespace, accepts an
optional sign followed by digits; raises ValueError otherwise (None here). -/
def pyIntOfString (s : String) : Option Int :=
  let cs := ((s.data.dropWhile isPyWhitespace).reverse.dropWhile isPyWhitespace).reverse
  match cs with
  | '-' :: rest => (parseDigits rest).map (fun n => -(n : Int))
  | '+' :: rest => (parseDigits rest).map (fun n => (n : Int))
  | _ => (parseDigits cs).map (fun n => (n : Int))

/-- Python character membership c in s. -/
def pyCharIn (c : Char) (s : String) : Bool :=
  s.data.contains c

/-- Worker for Python str.split with a one-character separator: the
accumulator holds the current part reversed. -/
def pySplitAux (sep : Char) : List Char → List Char → List (List Char)
  | [], acc => [acc.reverse]
  | c :: cs, acc =>
      if c = sep then acc.reverse :: pySplitAux sep cs []
      else pySplitAux sep cs (c :: acc)

/-- Python s.split(sep) for a one-character separator sep: splits at every
occurrence, keeps empty parts, and yields the whole string as the single
part when sep does not occur. -/
def pySplit (sep : Char) (s : String) : List String :=
  (pySplitAux sep s.data []).map (fun cs => String.mk cs)

/-- Values a Python dict of the source can hold (the annotation says
str or int; the optional active key is additionally used as a boolean). -/
inductive PyValue where
  | VStr : String → PyValue
  | VInt : Int → PyValue
  | VBool : Bool → PyValue
  deriving DecidableEq, Repr

/-- Python str(v): the identity on strings, decimal form of an integer,
True or False for a boolean. -/
def pyStr : PyValue → String
  | .VStr s => s
  | .VInt n => toString n
  | .VBool b => if b then "True" else "False"

/-- Python int(v): the identity on integers, 1 or 0 for a boolean, and for
a string the literal parse, which raises ValueError on failure (None here). -/
def pyInt : PyValue → Option Int
  | .VInt n => some n
  | .VBool b => some (if b then 1 else 0)
  | .VStr s => pyIntOfString s

/-- Python bool(v): the identity on booleans, nonzero test for an integer,
non-emptiness for a string. -/
def pyBool : PyValue → Bool
  | .VBool b => b
  | .VInt n => n ≠ 0
  | .VStr s => !s.data.isEmpty

/-- Python dict modelled as an association list; lookup is by first match. -/
abbrev PyDict := List (String × PyValue)

/-- Exceptions the example module can raise.  In the source every failure is
a ValueError (or a KeyError from dict indexing); the constructors keep the
distinguishing message payloads apart. -/
inductive PyError where
  | invalidArgument : String → PyError
  | missingField : String → PyError
  | invalidEmail : String → PyError
  | intCoercionError : String → PyError
  | keyError : String → PyError
  deriving DecidableEq, Repr

deriving instance DecidableEq for Except

/-- Membership of an error in the taxonomy of the spec, section 7:
InvalidArgument, MissingField, InvalidEmail.  The two remaining
constructors model exceptions that fall outside that taxonomy. -/
def inSpecErrorTaxonomy : PyError → Bool
  | .invalidArgument _ => true
  | .missingField _ => true
  | .invalidEmail _ => true
  | _ => false

/-- User dataclass of the source: id, name, email, and active with
default true. -/
structure User where
  id : Int
  name : String
  email : String
  active : Bool := true
  deriving DecidableEq, Repr

/-- User.get_display_name of the source: the f-string interpolating the
name, a space, and the email in parentheses. -/
def User.get_display_name (self : User) : String :=
  self.name ++ " (" ++ self.email ++ ")"

/-- calculate_discount of the source.  Raises ValueError when the price is
negative or the percentage is outside [0, 100]; otherwise subtracts the
discount amount, clamped by max_discount when that is provided. -/
def calculate_discount (price : ℚ) (discount_percent : ℚ)
    (max_discount : Option ℚ := none) : Except PyError ℚ :=
  if price < 0 then
    .error (.invalidArgument "Price cannot be negative")
  else if ¬ (0 ≤ discount_percent ∧ discount_percent ≤ 100) then
    .error (.invalidArgument "Discount percent must be between 0 and 100")
  else
    let discount_amount := price * (discount_percent / 100)
    let discount_amount :=
      match max_discount with
      | some m => min discount_amount m
      | none => discount_amount
    .ok (price - discount_amount)

/-- validate_email of the source: false on the empty string or when there
is no at sign; split on the at sign; false unless the split yields exactly
two parts; true iff the local part is non-empty and the domain part
contains a dot. -/
def validate_email (email : String) : Bool :=
  if email.data.isEmpty || !(pyCharIn '@' email) then false
  else
    match pySplit '@' email with
    | [loc, dom] => loc.length > 0 && pyCharIn '.' dom
    | _ => false

/-- required_fields list of process_user_data, in source order. -/
def required_fields : List String := ["id", "name", "email"]

/-- First required field absent from the dict, if any: the loop of
process_user_data raises at the first missing field in list order. -/
def firstMissing (fields : List String) (user_data : PyDict) : Option String :=
  fields.find? (fun f => (user_data.lookup f).isNone)

/-- process_user_data of the source.  Checks the required fields in order,
coerces the email to a string and validates its shape, then builds the User
with the coercions int(id), str(name), bool(active default True).  The
keyError branches mirror Python dict indexing and are unreachable once the
field check passed. -/
def process_user_data (user_data : PyDict) : Except PyError User :=
  match firstMissing required_fields user_data with
  | some f => .error (.missingField f)
  | none =>
    match user_data.lookup "email" with
    | none => .error (.keyError "email")
    | some ev =>
      if !(validate_email (pyStr ev)) then .error (.invalidEmail (pyStr ev))
      else
        match user_data.lookup "id" with
        | none => .error (.keyError "id")
        | some idv =>
          match pyInt idv with
          | none => .error (.intCoercionError (pyStr idv))
          | some idn =>
            match user_data.lookup "name" with
            | none => .error (.keyError "name")
            | some nv =>
              .ok { id := idn, name := pyStr nv, email := pyStr ev,
                    active := pyBool ((user_data.lookup "active").getD (.VBool true)) }

example : validate_email "user@example.com" = true := by decide
example : validate_email "invalid-email" = false := by decide
example : validate_email "" = false := by decide
example : validate_email "user@@example.com" = false := by decide
example : pyIntOfString "abc" = none := by decide
example : pyIntOfString " -42 " = some (-42) := by decide
example : User.get_display_name { id := 1, name := "Alice Smith", email := "alice@example.com" }
    = "Alice Smith (alice@example.com)" := by decide

/-- C10: get_display_name returns the name, a space, an opening parenthesis,
the email, and a closing parenthesis; the embedding is a pure function of
the record, so the record is unchanged. -/
theorem get_display_name_spec (u : User) :
    u.get_display_name = u.name ++ " (" ++ u.email ++ ")" := rfl

/-- C9: a mapping with all three required keys and a shape-valid email on
which buildUserRecord still fails, because int() on the id string "abc"
raises an error outside the MissingField, InvalidEmail, InvalidArgument
taxonomy. -/
theorem process_user_data_unclassified_id_error :
    process_user_data
        [("id", .VStr "abc"), ("name", .VStr "Bob"), ("email", .VStr "bob@example.com")]
      = .error (.intCoercionError "abc")
    ∧ validate_email "bob@example.com" = true
    ∧ inSpecErrorTaxonomy (.intCoercionError "abc") = false :=
  ⟨by decide, by decide, rfl⟩

/-- Helper: on valid inputs both guards pass and the result is the price
minus the (possibly clamped) discount amount. -/
theorem calculate_discount_eq_ok (price discount_percent m : ℚ)
    (hp : 0 ≤ price) (h0 : 0 ≤ discount_percent) (h100 : discount_percent ≤ 100) :
    calculate_discount price discount_percent (some m)
        = .ok (price - min (price * (discount_percent / 100)) m)
    ∧ calculate_discount price discount_percent none
        = .ok (price - price * (discount_percent / 100)) := by
  constructor <;>
  · unfold calculate_discount
    rw [if_neg (not_lt.mpr hp), if_neg (not_not_intro ⟨h0, h100⟩)]

/-- C6: on valid inputs, with a cap the result is the price minus the
discount amount clamped by the cap, and without a cap the price minus the
plain discount amount. -/
theorem calculate_discount_formula (price discount_percent m : ℚ)
    (hp : 0 ≤ price) (h0 : 0 ≤ discount_percent) (h100 : discount_percent ≤ 100) :
    calculate_discount price discount_percent (some m)
        = .ok (price - min (price * (discount_percent / 100)) m)
    ∧ calculate_discount price discount_percent none
        = .ok (price - price * (discount_percent / 100)) :=
  calculate_discount_eq_ok price discount_percent m hp h0 h100

/-- Witness for C6 at the two worked examples of the spec:
computeDiscountedPrice(100, 50, 30) is 70 and
computeDiscountedPrice(100, 20, none) is 80. -/
theorem calculate_discount_formula_witness :
    calculate_discount 100 50 (some 30) = .ok 70
    ∧ calculate_discount 100 20 none = .ok 80 := by
  have h := calculate_discount_formula 100 50 30 (by norm_num) (by norm_num) (by norm_num)
  have h' := calculate_discount_formula 100 20 0 (by norm_num) (by norm_num) (by norm_num)
  refine ⟨?_, ?_⟩
  · rw [h.1]; norm_num [min_def]
  · rw [h'.2]; norm_num

/-- C5: the call fails with InvalidArgument exactly when the price is
negative or the percentage is outside the closed interval from 0 to 100,
and when the price is negative the negative-price failure is the one
raised, whatever the percentage. -/
theorem calculate_discount_invalid_argument_iff (price discount_percent : ℚ)
    (md : Option ℚ) :
    ((∃ msg, calculate_discount price discount_percent md
        = .error (.invalidArgument msg))
      ↔ (price < 0 ∨ discount_percent < 0 ∨ 100 < discount_percent))
    ∧ (price < 0 → calculate_discount price discount_percent md
        = .error (.invalidArgument "Price cannot be negative")) := by
  unfold calculate_discount
  by_cases h1 : price < 0
  · rw [if_pos h1]
    exact ⟨⟨fun _ => Or.inl h1, fun _ => ⟨_, rfl⟩⟩, fun _ => rfl⟩
  · rw [if_neg h1]
    by_cases h2 : 0 ≤ discount_percent ∧ discount_percent ≤ 100
    · rw [if_neg (not_not_intro h2)]
      refine ⟨⟨fun hx => ?_, fun hx => ?_⟩, fun hx => absurd hx h1⟩
      · obtain ⟨msg, hmsg⟩ := hx
        exact absurd hmsg (by simp)
      · rcases hx with hx | hx | hx
        · exact absurd hx h1
        · exact absurd hx (not_lt.mpr h2.1)
        · exact absurd hx (not_lt.mpr h2.2)
    · rw [if_pos h2]
      refine ⟨⟨fun _ => ?_, fun _ => ⟨_, rfl⟩⟩, fun hx => absurd hx h1⟩
      rcases not_and_or.mp h2 with hx | hx
      · exact Or.inr (Or.inl (not_le.mp hx))
      · exact Or.inr (Or.inr (not_le.mp hx))

/-- Witness for C5 at the two failing examples of the spec:
a negative price and an out-of-range percentage. -/
theorem calculate_discount_invalid_argument_witness :
    calculate_discount (-10) 20 none
        = .error (.invalidArgument "Price cannot be negative")
    ∧ ∃ msg, calculate_discount 100 150 none = .error (.invalidArgument msg) :=
  ⟨(calculate_discount_invalid_argument_iff (-10) 20 none).2 (by norm_num),
   (calculate_discount_invalid_argument_iff 100 150 none).1.mpr
     (Or.inr (Or.inr (by norm_num)))⟩

/-- Counterexample to C1 as stated: with the cap argument present and
negative, the clamp picks the negative cap, so the result exceeds the
price: computeDiscountedPrice(100, 20, -50) is 150, outside the closed
interval from 0 to 100. -/
theorem calculate_discount_interval_cex :
    calculate_discount 100 20 (some (-50)) = .ok 150 ∧ ¬ ((150 : ℚ) ≤ 100) := by
  constructor
  · norm_num [calculate_discount, min_def]
  · norm_num

/-- C1 amended: for every price at least 0 and percentage in the closed
interval from 0 to 100, and for every value of the cap argument that is
omitted or at least 0, the result is in the closed interval from 0 to the
price. -/
theorem calculate_discount_interval (price discount_percent : ℚ) (md : Option ℚ)
    (hp : 0 ≤ price) (h0 : 0 ≤ discount_percent) (h100 : discount_percent ≤ 100)
    (hmd : ∀ m, md = some m → 0 ≤ m) :
    ∃ r, calculate_discount price discount_percent md = .ok r
      ∧ 0 ≤ r ∧ r ≤ price := by
  have hd0 : 0 ≤ price * (discount_percent / 100) := by positivity
  have hd1 : price * (discount_percent / 100) ≤ price := by
    calc price * (discount_percent / 100) ≤ price * 1 := by
          apply mul_le_mul_of_nonneg_left _ hp
          rw [div_le_one (by norm_num)]
          exact h100
      _ = price := mul_one price
  cases md with
  | none =>
      refine ⟨price - price * (discount_percent / 100),
        (calculate_discount_eq_ok price discount_percent 0 hp h0 h100).2, ?_, ?_⟩
      · linarith
      · linarith
  | some m =>
      have hm : 0 ≤ m := hmd m rfl
      refine ⟨price - min (price * (discount_percent / 100)) m,
        (calculate_discount_eq_ok price discount_percent m hp h0 h100).1, ?_, ?_⟩
      · have : min (price * (discount_percent / 100)) m ≤ price :=
          le_trans (min_le_left _ _) hd1
        linarith
      · have : 0 ≤ min (price * (discount_percent / 100)) m := le_min hd0 hm
        linarith

/-- Witness for the amended C1 at price 100, percentage 20, cap 30. -/
theorem calculate_discount_interval_witness :
    ∃ r, calculate_discount 100 20 (some 30) = .ok r ∧ 0 ≤ r ∧ r ≤ 100 :=
  calculate_discount_interval 100 20 (some 30) (by norm_num) (by norm_num) (by norm_num)
    (by intro m hm; injection hm with h; rw [← h]; norm_num)

/-- Helper: a string equals the empty string iff its character list is
empty. -/
theorem string_eq_empty_iff (s : String) : s = "" ↔ s.data = [] :=
  ⟨fun h => by rw [h], fun h => String.ext (h.trans rfl)⟩

/-- C3: validate_email is true exactly when the string contains an at sign,
splitting on the at sign yields exactly two parts, the local part is
non-empty, and the domain part contains a dot; in particular it is false on
the empty string, and as a total function it never raises. -/
theorem validate_email_iff :
    (∀ email : String, validate_email email = true ↔
      (pyCharIn '@' email = true ∧ ∃ loc dom, pySplit '@' email = [loc, dom]
        ∧ loc ≠ "" ∧ pyCharIn '.' dom = true))
    ∧ validate_email "" = false := by
  refine ⟨fun email => ?_, by decide⟩
  unfold validate_email
  cases hb : email.data.isEmpty || !(pyCharIn '@' email) with
  | true =>
      rw [if_pos (Eq.refl true)]
      simp only [Bool.false_eq_true, false_iff]
      rintro ⟨hat, loc, dom, hsplit, hloc, hdom⟩
      rcases Bool.or_eq_true_iff.mp hb with hemp | hnc
      · have hd : email.data = [] := by simpa using hemp
        rw [pyCharIn, hd] at hat
        simp at hat
      · rw [hat] at hnc
        simp at hnc
  | false =>
      rw [if_neg (by simp [hb])]
      simp only [Bool.or_eq_false_iff] at hb
      have hat : pyCharIn '@' email = true := by
        have := hb.2
        simp at this
        exact this
      cases hs : pySplit '@' email with
      | nil => simp
      | cons loc tl =>
          cases tl with
          | nil => simp
          | cons dom tl2 =>
              cases tl2 with
              | cons x tl3 => simp
              | nil =>
                  simp only [Bool.and_eq_true, decide_eq_true_eq]
                  constructor
                  · rintro ⟨hlen, hdom⟩
                    refine ⟨hat, loc, dom, rfl, ?_, hdom⟩
                    intro he
                    rw [string_eq_empty_iff] at he
                    rw [String.length, he] at hlen
                    simp at hlen
                  · rintro ⟨-, l, d, hld, hne, hdom⟩
                    simp only [List.cons.injEq, and_true] at hld
                    obtain ⟨h1, h2⟩ := hld
                    subst h1
                    subst h2
                    refine ⟨?_, hdom⟩
                    rw [String.length]
                    rcases Nat.eq_zero_or_pos loc.data.length with hz | hp
                    · exact absurd ((string_eq_empty_iff loc).mpr
                        (List.length_eq_zero.mp hz)) hne
                    · exact hp

/-- Witness for C3: the backward direction applied at a concrete address. -/
theorem validate_email_iff_witness : validate_email "user@example.com" = true :=
  (validate_email_iff.1 "user@example.com").mpr
    ⟨by decide, "user", "example.com", by decide, by decide, by decide⟩

/-- Helper: every successful process_user_data call has this shape: the
three required lookups succeeded, the coerced email passed validation, the
id value coerced to an integer, and the record is built from the
coercions. -/
theorem process_user_data_ok_shape (d : PyDict) (u : User)
    (h : process_user_data d = .ok u) :
    ∃ idv nv ev idn, d.lookup "id" = some idv ∧ d.lookup "name" = some nv ∧
      d.lookup "email" = some ev ∧ validate_email (pyStr ev) = true ∧
      pyInt idv = some idn ∧
      u = { id := idn, name := pyStr nv, email := pyStr ev,
            active := pyBool ((d.lookup "active").getD (.VBool true)) } := by
  unfold process_user_data at h
  split at h
  · exact absurd h (by simp)
  · split at h
    · exact absurd h (by simp)
    next ev he =>
      split at h
      · exact absurd h (by simp)
      next hv =>
        split at h
        · exact absurd h (by simp)
        next idv hid =>
          split at h
          · exact absurd h (by simp)
          next idn hint =>
            split at h
            · exact absurd h (by simp)
            next nv hn =>
              injection h with h'
              refine ⟨idv, nv, ev, idn, hid, hn, he, by simpa using hv, hint, h'.symm⟩

/-- Counterexample to C2 as stated: the source never checks that the name
is non-empty, so a mapping whose name value is the empty string yields a
record with an empty name. -/
theorem process_user_data_nonempty_name_cex :
    process_user_data [("id", .VInt 1), ("name", .VStr ""), ("email", .VStr "a@b.c")]
      = .ok { id := 1, name := "", email := "a@b.c", active := true }
    ∧ ({ id := 1, name := "", email := "a@b.c", active := true } : User).name = "" :=
  ⟨by decide, rfl⟩

/-- C2 amended: the name of every successfully built record is the string
coercion of the name value of the mapping; it may be empty, since the code
performs no emptiness check. -/
theorem process_user_data_name_eq (d : PyDict) (u : User)
    (h : process_user_data d = .ok u) :
    ∃ v, d.lookup "name" = some v ∧ u.name = pyStr v := by
  obtain ⟨idv, nv, ev, idn, -, hn, -, -, -, hu⟩ := process_user_data_ok_shape d u h
  exact ⟨nv, hn, by rw [hu]⟩

/-- Witness for the amended C2 at a concrete mapping with name Bob. -/
theorem process_user_data_name_eq_witness :
    ∃ v, (([("id", (.VInt 1 : PyValue)), ("name", .VStr "Bob"),
        ("email", .VStr "bob@example.com")] : PyDict).lookup "name") = some v
      ∧ ({ id := 1, name := "Bob", email := "bob@example.com", active := true } : User).name
          = pyStr v :=
  process_user_data_name_eq _ _ (by decide)

/-- C4: a mapping missing a required key fails with MissingField naming the
first missing key in the fixed order id, name, email; the presence check
runs before any email validation, so the email value never matters here. -/
theorem process_user_data_missing_field (d : PyDict) :
    (d.lookup "id" = none → process_user_data d = .error (.missingField "id"))
    ∧ (∀ v, d.lookup "id" = some v → d.lookup "name" = none →
        process_user_data d = .error (.missingField "name"))
    ∧ (∀ v w, d.lookup "id" = some v → d.lookup "name" = some w →
        d.lookup "email" = none →
        process_user_data d = .error (.missingField "email")) := by
  refine ⟨fun hid => ?_, fun v hid hn => ?_, fun v w hid hn he => ?_⟩
  · have hf : firstMissing required_fields d = some "id" := by
      simp [firstMissing, required_fields, List.find?, hid]
    simp [process_user_data, hf]
  · have hf : firstMissing required_fields d = some "name" := by
      simp [firstMissing, required_fields, List.find?, hid, hn]
    simp [process_user_data, hf]
  · have hf : firstMissing required_fields d = some "email" := by
      simp [firstMissing, required_fields, List.find?, hid, hn, he]
    simp [process_user_data, hf]

/-- Witness for C4 at the spec example (missing id), with an additionally
invalid email to exhibit the precedence of the presence check. -/
theorem process_user_data_missing_field_witness :
    process_user_data [("name", .VStr "Alice"), ("email", .VStr "invalid")]
      = .error (.missingField "id") :=
  (process_user_data_missing_field _).1 (by decide)

/-- C7: the email of every successfully built record passes the shape
check, and when the three required keys are present but the coerced email
fails the shape check the call fails with InvalidEmail carrying that
email. -/
theorem process_user_data_email_invariant (d : PyDict) :
    (∀ u, process_user_data d = .ok u → validate_email u.email = true)
    ∧ (∀ v w ev, d.lookup "id" = some v → d.lookup "name" = some w →
        d.lookup "email" = some ev → validate_email (pyStr ev) = false →
        process_user_data d = .error (.invalidEmail (pyStr ev))) := by
  constructor
  · intro u h
    obtain ⟨idv, nv, ev, idn, -, -, -, hv, -, hu⟩ := process_user_data_ok_shape d u h
    rw [hu]
    exact hv
  · intro v w ev hid hn he hval
    have hf : firstMissing required_fields d = none := by
      simp [firstMissing, required_fields, List.find?, hid, hn, he]
    simp [process_user_data, hf, he, hval]

/-- Witness for C7 at the spec example of an invalid email with all
required keys present. -/
theorem process_user_data_email_invariant_witness :
    process_user_data
        [("id", .VInt 1), ("name", .VStr "Alice"), ("email", .VStr "invalid-email")]
      = .error (.invalidEmail "invalid-email") :=
  (process_user_data_email_invariant _).2 (.VInt 1) (.VStr "Alice") (.VStr "invalid-email")
    (by decide) (by decide) (by decide) (by decide)

/-- C8: the active flag of every successfully built record is true when
the mapping has no active key, and otherwise is the boolean coercion of
the active value. -/
theorem process_user_data_active_default (d : PyDict) (u : User)
    (h : process_user_data d = .ok u) :
    (d.lookup "active" = none → u.active = true)
    ∧ (∀ v, d.lookup "active" = some v → u.active = pyBool v) := by
  obtain ⟨idv, nv, ev, idn, -, -, -, -, -, hu⟩ := process_user_data_ok_shape d u h
  constructor
  · intro ha
    rw [hu]
    simp [ha, pyBool]
  · intro v ha
    rw [hu]
    simp [ha]

/-- Witness for C8 at the spec example: no active key, so the record is
active. -/
theorem process_user_data_active_default_witness :
    ({ id := 1, name := "Bob", email := "bob@example.com", active := true } : User).active
      = true :=
  (process_user_data_active_default
      [("id", .VInt 1), ("name", .VStr "Bob"), ("email", .VStr "bob@example.com")]
      { id := 1, name := "Bob", email := "bob@example.com", active := true }
      (by decide)).1 (by decide)

/-- Witness for C10 at the docstring example of the source. -/
theorem get_display_name_spec_witness :
    User.get_display_name
        { id := 1, name := "Alice Smith", email := "alice@example.com", active := true }
      = "Alice Smith" ++ " (" ++ "alice@example.com" ++ ")" :=
  get_display_name_spec
    { id := 1, name := "Alice Smith", email := "alice@example.com", active := true }
